import Mathlib

/-
Verification development for a two-stage untrusted-script gate:
a static validator (`validator.py`) that checks a Python source tree against a
structural and import/call/attribute policy, and a sandboxed runner
(`runner.py`) that executes an accepted script in a restricted namespace and
returns a structured execution result.

The validator is embedded over a model of the Python abstract syntax tree
quotiented by what `validate_code` observes: the statement and expression
shapes it branches on are modeled exactly, and every other statement or
expression kind is represented generically by its class name together with its
child statements / expressions (the validator treats all such nodes uniformly,
both in the top-level structural pass and in the generic tree walk).

The runner's dynamic evaluation of source text cannot be re-parsed here, so a
script is modeled by its observable behavior at the two evaluation points of
`execute_task`: what loading the module writes and whether it raises, and what
the `run` entry point writes, returns and raises.  The control flow, the
output-capture accounting and the exception boundary of `execute_task` are
translated statement by statement.
-/

/-! ## Python AST model (the fragment `validate_code` distinguishes) -/

/-- Python expression nodes.  `Name`, `Attribute` and `Call` are modeled
precisely because `validate_code` branches on them (validator.py lines
97-104); every other expression class (`BinOp`, `ListComp`, `Lambda`,
`Subscript`, ...) is represented by `ExprOther` with its class name and its
child expressions, which is all the generic `ast.walk` traversal observes. -/
inductive Expr where
  | Name (id : String)
  | Constant
  | Attribute (value : Expr) (attr : String)
  | Call (func : Expr) (args : List Expr)
  | ExprOther (kind : String) (subs : List Expr)

/-- Python statement nodes.  `Import`, `ImportFrom` and `FunctionDef` are
modeled precisely because the structural pass branches on them (validator.py
lines 67-87); every other statement class (`Assign`, `Expr`, `ClassDef`,
`For`, `Return`, `Pass`, ...) is represented by `StmtOther` with its class
name and its child statements and expressions.
For `Import`/`ImportFrom`, `names` holds the `alias.name` strings of
`node.names` (possibly dotted); `module` holds `node.module` of an
`ImportFrom` (which `validate_code` never reads).  For `FunctionDef`, `args`
holds the names of `node.args.args` (the positional parameters, the only part
of the signature `validate_code` reads), `defaults` the default-value
expressions, `body` the function body and `decorators` the decorator list. -/
inductive Stmt where
  | Import (names : List String)
  | ImportFrom (module : Option String) (names : List String)
  | FunctionDef (name : String) (args : List String) (defaults : List Expr)
      (body : List Stmt) (decorators : List Expr)
  | StmtOther (kind : String) (stmts : List Stmt) (exprs : List Expr)

/- Number of nodes of an expression tree (used as exact fuel for the
breadth-first walk). -/
mutual
def exprSize : Expr → Nat
  | .Name _ => 1
  | .Constant => 1
  | .Attribute v _ => 1 + exprSize v
  | .Call f args => 1 + exprSize f + exprListSize args
  | .ExprOther _ subs => 1 + exprListSize subs
def exprListSize : List Expr → Nat
  | [] => 0
  | e :: es => exprSize e + exprListSize es
end

/- Number of nodes of a statement tree. -/
mutual
def stmtSize : Stmt → Nat
  | .Import _ => 1
  | .ImportFrom _ _ => 1
  | .FunctionDef _ _ defaults body decorators =>
      1 + exprListSize defaults + stmtListSize body + exprListSize decorators
  | .StmtOther _ ss es => 1 + stmtListSize ss + exprListSize es
def stmtListSize : List Stmt → Nat
  | [] => 0
  | s :: ss => stmtSize s + stmtListSize ss
end

/-- A node of the tree, as enumerated by `ast.walk`: either a statement or an
expression. -/
inductive Node where
  | stmt (s : Stmt)
  | expr (e : Expr)

def nodeSize : Node → Nat
  | .stmt s => stmtSize s
  | .expr e => exprSize e

/-- The child nodes of a node, mirroring `ast.iter_child_nodes` on the modeled
fragment: a `FunctionDef` yields its default-value expressions, its body
statements and its decorator expressions; a `Call` yields its callee and its
arguments; an `Attribute` yields the accessed value. -/
def childNodes : Node → List Node
  | .stmt (.Import _) => []
  | .stmt (.ImportFrom _ _) => []
  | .stmt (.FunctionDef _ _ defaults body decorators) =>
      defaults.map .expr ++ body.map .stmt ++ decorators.map .expr
  | .stmt (.StmtOther _ ss es) => ss.map .stmt ++ es.map .expr
  | .expr (.Name _) => []
  | .expr .Constant => []
  | .expr (.Attribute v _) => [.expr v]
  | .expr (.Call f args) => .expr f :: args.map .expr
  | .expr (.ExprOther _ subs) => subs.map .expr

def nodeListSize : List Node → Nat
  | [] => 0
  | n :: ns => nodeSize n + nodeListSize ns

/-- Breadth-first enumeration of all nodes reachable from a queue, as done by
`ast.walk` (pop a node, yield it, push its children at the back).  Each step
removes one node whose children it enqueues, so the total node count of the
queue drops by exactly one per step; running with fuel `nodeListSize q`
therefore drains the queue exactly. -/
def walkAux : Nat → List Node → List Node
  | _, [] => []
  | 0, q => q
  | fuel+1, n :: rest => n :: walkAux fuel (rest ++ childNodes n)

/-- `ast.walk` over a starting queue of nodes. -/
def walk (q : List Node) : List Node := walkAux (nodeListSize q) q

/-- `Occurs x n`: node `x` is `n` itself or occurs, at any nesting depth,
inside one of `n`'s children.  This is the reference notion of "node of the
tree" against which the breadth-first walk is characterized. -/
inductive Occurs : Node → Node → Prop where
  | refl (n : Node) : Occurs n n
  | child {x c n : Node} : c ∈ childNodes n → Occurs x c → Occurs x n

/-- `x` occurs somewhere (at any depth) in a list of top-level statements. -/
def OccursIn (x : Node) (body : List Stmt) : Prop :=
  ∃ s ∈ body, Occurs x (Node.stmt s)

/-! ## Policy constants (validator.py lines 33-39, runner.py lines 50-69) -/

/-- validator.py line 33: `ALLOWED_IMPORTS`. -/
def ALLOWED_IMPORTS : List String :=
  ["math", "json", "datetime", "re", "random", "collections", "itertools", "functools"]

/-- validator.py line 36: `FORBIDDEN_CALLS`. -/
def FORBIDDEN_CALLS : List String :=
  ["eval", "exec", "compile", "open", "input", "__import__", "globals", "locals",
   "super", "help", "exit", "quit"]

/-- validator.py line 39: `FORBIDDEN_ATTRS`. -/
def FORBIDDEN_ATTRS : List String :=
  ["system", "popen", "spawn", "fork", "kill"]

/-! ## The validator (validator.py, `validate_code`) -/

/-- One discrete violation.  The source appends formatted strings to a flat
`errors` list; each constructor corresponds to exactly one append site (or
early return) of `validate_code`, carrying the data interpolated there:
* `synError msg` — line 58, `f"Syntax Error: {str(e)}"`;
* `parseError msg` — line 61, `f"Parse Error: {str(e)}"`;
* `forbiddenImport root` — line 73, `f"Forbidden import: '{module_name}'. ..."`;
* `badRunArgs` — line 81, `"Function 'run' must accept exactly one argument named 'params'"`;
* `forbiddenTopFunc name` — line 83, `f"Forbidden top-level function: '{node.name}'. ..."`;
* `forbiddenTopStmt kind` — line 87, `f"Forbidden top-level statement type: {type(node).__name__}. ..."`;
* `missingEntry` — line 91, `"Missing required function: 'def run(params):'"`;
* `forbiddenCall name` — line 100, `f"Forbidden function call: '{node.func.id}'"`;
* `forbiddenAttr name` — line 104, `f"Forbidden attribute access: '{node.func.attr}'"`. -/
inductive Violation where
  | synError (msg : String)
  | parseError (msg : String)
  | forbiddenImport (root : String)
  | badRunArgs
  | forbiddenTopFunc (name : String)
  | forbiddenTopStmt (kind : String)
  | missingEntry
  | forbiddenCall (name : String)
  | forbiddenAttr (name : String)
deriving DecidableEq

/-- The dictionary returned by `validate_code`:
`{"valid": len(errors) == 0, "errors": errors}`. -/
structure Report where
  valid : Bool
  errors : List Violation
deriving DecidableEq

/-- The outcome of `ast.parse(code_str)` (validator.py lines 53-61): a parsed
module body, a `SyntaxError` (caught at line 56), or any other parse-time
exception (caught at line 59).  Parsing itself is the host language's parser,
external to the repository; `validate_code` is modeled as a function of its
outcome. -/
inductive ParseOutcome where
  | parsed (body : List Stmt)
  | synFail (msg : String)
  | otherFail (msg : String)

/-- `alias.name.split('.')[0]` (validator.py line 71): the text of the module
path before the first `'.'` (the whole string when there is none). -/
def rootModule (nm : String) : String :=
  String.mk (nm.data.takeWhile (fun c => c != '.'))

/-- The import loop body (validator.py lines 70-73): for every `alias` in
`node.names`, append a violation when the root of `alias.name` is not
whitelisted.  Note the source runs this same loop for `ast.Import` and
`ast.ImportFrom` alike, always over `node.names`. -/
def importAliasErrors (names : List String) : List Violation :=
  names.filterMap fun nm =>
    if ALLOWED_IMPORTS.contains (rootModule nm) then none
    else some (.forbiddenImport (rootModule nm))

/-- The violations one top-level statement contributes in the structural pass
(validator.py lines 67-87): the `isinstance` branches of the loop body,
without the `has_run_func` flag update. -/
def stmtStructErrors : Stmt → List Violation
  | .Import names => importAliasErrors names
  | .ImportFrom _ names => importAliasErrors names
  | .FunctionDef nm args _ _ _ =>
      if nm == "run" then
        if args.length != 1 || args.headD "" != "params" then [.badRunArgs] else []
      else [.forbiddenTopFunc nm]
  | .StmtOther kind _ _ => [.forbiddenTopStmt kind]

/-- Whether a top-level statement sets `has_run_func` (validator.py lines
76-77): any `FunctionDef` named `run`, regardless of its parameter list. -/
def isRunDefStmt : Stmt → Bool
  | .FunctionDef nm _ _ _ _ => nm == "run"
  | _ => false

/-- The structural loop (validator.py lines 65-87): fold over `tree.body`
accumulating the `errors` list and the `has_run_func` flag. -/
def structLoop (body : List Stmt) : List Violation × Bool :=
  body.foldl
    (fun acc node => (acc.1 ++ stmtStructErrors node, acc.2 || isRunDefStmt node))
    ([], false)

/-- Structural-pass errors including the entry-point check (validator.py lines
65-91): the loop's errors followed by `missingEntry` when no `run` definition
was seen. -/
def structuralErrors (body : List Stmt) : List Violation :=
  (structLoop body).1 ++ (if (structLoop body).2 then [] else [Violation.missingEntry])

/-- The deep-scan check of a single walked node (validator.py lines 95-104):
a `Call` whose callee is a bare `Name` in `FORBIDDEN_CALLS` yields
`forbiddenCall`; otherwise a `Call` whose callee is an `Attribute` whose
attribute name is in `FORBIDDEN_ATTRS` yields `forbiddenAttr`; every other
node yields nothing. -/
def checkNode : Node → List Violation
  | Node.expr (Expr.Call (Expr.Name f) _) =>
      if FORBIDDEN_CALLS.contains f then [Violation.forbiddenCall f] else []
  | Node.expr (Expr.Call (Expr.Attribute _ a) _) =>
      if FORBIDDEN_ATTRS.contains a then [Violation.forbiddenAttr a] else []
  | _ => []

/-- The deep scan (validator.py lines 93-104): `for node in ast.walk(tree)`,
appending the per-node check results in walk order.  (`ast.walk` starts from
the `Module` wrapper node, which is never a `Call` and contributes nothing;
the walk here starts from its children, the top-level statements.) -/
def deepPass (body : List Stmt) : List Violation :=
  ((walk (body.map Node.stmt)).map checkNode).flatten

/-- `validate_code` (validator.py lines 41-110) as a function of the parse
outcome: a parse failure returns a single-violation invalid report; otherwise
the structural pass, the entry-point check and the deep scan accumulate into
one `errors` list and `valid` is `len(errors) == 0`. -/
def validate_code (p : ParseOutcome) : Report :=
  match p with
  | .synFail msg => { valid := false, errors := [Violation.synError msg] }
  | .otherFail msg => { valid := false, errors := [Violation.parseError msg] }
  | .parsed body =>
      let errs := structuralErrors body ++ deepPass body
      { valid := errs.isEmpty, errors := errs }

/-! ## Claim-side (spec-worded) definitions, for refinement comparison only -/

/-- Spec wording: a top-level statement that is an import all of whose named
modules have whitelisted roots. -/
def isAllowedImportStmt : Stmt → Bool
  | .Import names => names.all fun nm => ALLOWED_IMPORTS.contains (rootModule nm)
  | .ImportFrom _ names => names.all fun nm => ALLOWED_IMPORTS.contains (rootModule nm)
  | _ => false

/-- Spec wording: a definition of `run` whose parameter list is exactly one
positional parameter named `params`. -/
def isWellFormedRunDef : Stmt → Bool
  | .FunctionDef nm args _ _ _ => nm == "run" && args == ["params"]
  | _ => false

/-- Claim C3's asserted shape, from the spec's words: the top-level statements
are exactly zero-or-more allowed imports followed by exactly one definition of
`run(params)`. -/
def claimedShape (body : List Stmt) : Bool :=
  match body.getLast? with
  | none => false
  | some lastStmt => body.dropLast.all isAllowedImportStmt && isWellFormedRunDef lastStmt

/-- A top-level statement that contributes no structural violation: an import
with only whitelisted roots or a well-formed `run` definition. -/
def stmtClean (s : Stmt) : Bool := isAllowedImportStmt s || isWellFormedRunDef s

/-! ## The runner (runner.py, `execute_task`) -/

/-- Python values as far as the runner's interface observes them: the return
value of `run`, the parameter payload entries, and builtin implementations.
A builtin bound in the sandbox is modeled as a tagged reference
`builtinFn name` to the host interpreter's implementation of `name`. -/
inductive PyValue where
  | vNone
  | vInt (n : Int)
  | vStr (s : String)
  | builtinFn (name : String)
deriving DecidableEq

/-- The caller-supplied `params` mapping. -/
abbrev Params := List (String × PyValue)

/-- A raised Python exception: its class name and its message. -/
structure PyExc where
  cls : String
  msg : String
deriving DecidableEq

/-- Parent class of each built-in exception class, per the documented CPython
exception hierarchy (a model of the host language runtime; the subset listed
covers every class named in this development — classes outside the model have
no parent and are treated as unrelated to `Exception`). -/
def excParent : String → Option String
  | "Exception" => some "BaseException"
  | "SystemExit" => some "BaseException"
  | "KeyboardInterrupt" => some "BaseException"
  | "GeneratorExit" => some "BaseException"
  | "ArithmeticError" => some "Exception"
  | "ZeroDivisionError" => some "ArithmeticError"
  | "OverflowError" => some "ArithmeticError"
  | "FloatingPointError" => some "ArithmeticError"
  | "AssertionError" => some "Exception"
  | "AttributeError" => some "Exception"
  | "BufferError" => some "Exception"
  | "EOFError" => some "Exception"
  | "ImportError" => some "Exception"
  | "LookupError" => some "Exception"
  | "IndexError" => some "LookupError"
  | "KeyError" => some "LookupError"
  | "MemoryError" => some "Exception"
  | "NameError" => some "Exception"
  | "UnboundLocalError" => some "NameError"
  | "OSError" => some "Exception"
  | "ReferenceError" => some "Exception"
  | "RuntimeError" => some "Exception"
  | "NotImplementedError" => some "RuntimeError"
  | "RecursionError" => some "RuntimeError"
  | "StopIteration" => some "Exception"
  | "SyntaxError" => some "Exception"
  | "SystemError" => some "Exception"
  | "TypeError" => some "Exception"
  | "ValueError" => some "Exception"
  | "UnicodeError" => some "ValueError"
  | _ => none

/-- The class and all its ancestors, walking `excParent` (the hierarchy has
depth at most 4, so fuel 8 is exact on every modeled class). -/
def excAncestors : Nat → String → List String
  | 0, _ => []
  | fuel+1, c =>
      c :: (match excParent c with
            | some p => excAncestors fuel p
            | none => [])

/-- Whether a raised exception of class `c` is caught by `except Exception`
(runner.py line 118): `c` is `Exception` or derives from it. -/
def isSubclassOfException (c : String) : Bool :=
  (excAncestors 8 c).contains "Exception"

/-- Claim wording: membership in the language's standard exception hierarchy,
whose root is `BaseException` (so `SystemExit`, `KeyboardInterrupt` and
`GeneratorExit` belong to it even though they do not derive from
`Exception`). -/
def inStandardHierarchy (c : String) : Bool :=
  (excAncestors 8 c).contains "BaseException"

/-- `traceback.format_exc()` (runner.py line 120), modeled up to the frame
lines: a trace header followed by the final `ExceptionClass: message` line of
the CPython traceback format. -/
def format_exc (e : PyExc) : String :=
  "Traceback (most recent call last):\n" ++ e.cls ++ ": " ++ e.msg ++ "\n"

/-- `pat` occurs as a contiguous substring of `s`. -/
def strContains (s pat : String) : Prop := ∃ a b, s = a ++ pat ++ b

/-- runner.py lines 50-69: `SAFE_BUILTINS`, in source order. -/
def SAFE_BUILTINS : List String :=
  ["abs", "all", "any", "ascii", "bin", "bool", "bytearray", "bytes",
   "chr", "complex", "dict", "divmod", "enumerate", "filter", "float",
   "format", "frozenset", "getattr", "hasattr", "hash", "hex", "id",
   "int", "isinstance", "issubclass", "iter", "len", "list", "map",
   "max", "min", "next", "object", "oct", "ord", "pow", "print",
   "range", "repr", "reversed", "round", "set", "slice", "sorted",
   "str", "sum", "tuple", "type", "zip", "__import__",
   "Exception", "BaseException", "ValueError", "TypeError", "KeyError",
   "IndexError", "AttributeError", "RuntimeError", "ImportError",
   "NameError", "SyntaxError", "StopIteration", "ArithmeticError",
   "AssertionError", "BufferError", "EOFError", "FloatingPointError",
   "GeneratorExit", "KeyboardInterrupt", "LookupError", "MemoryError",
   "NotImplementedError", "OSError", "OverflowError", "ReferenceError",
   "SystemError", "SystemExit", "UnboundLocalError", "UnicodeError",
   "ZeroDivisionError",
   "super", "property", "classmethod", "staticmethod"]

/-- Model of the host interpreter's `builtins` module (what `hasattr(builtins,
name)` / `getattr(builtins, name)` consult at runner.py lines 86-87): every
name in `SAFE_BUILTINS` is a genuine CPython builtin, and further builtins
exist that are not whitelisted. -/
def builtinNames : List String :=
  SAFE_BUILTINS ++
  ["open", "eval", "exec", "compile", "input", "globals", "locals", "help",
   "exit", "quit", "vars", "dir", "setattr", "delattr", "callable"]

/-- `getattr(builtins, n)` when `hasattr(builtins, n)`, else `none`. -/
def builtinsValue (n : String) : Option PyValue :=
  if builtinNames.contains n then some (.builtinFn n) else none

/-- runner.py lines 84-87: `safe_builtins_dict`, the restricted `__builtins__`
mapping — every whitelisted name that exists in `builtins`, bound to its real
implementation. -/
def safe_builtins_dict : List (String × PyValue) :=
  SAFE_BUILTINS.filterMap fun n => (builtinsValue n).map fun v => (n, v)

/-- runner.py lines 90-93: the execution namespace handed to `exec`, a
two-entry dictionary `{'__builtins__': safe_builtins_dict, 'params': params}`
modeled as a two-field structure. -/
structure Sandbox where
  builtinsNS : List (String × PyValue)
  paramsVal : Params

def mkSandbox (params : Params) : Sandbox :=
  { builtinsNS := safe_builtins_dict, paramsVal := params }

/-- Observable behavior of invoking the script's `run(params)` (runner.py
line 115): what it writes to the redirected streams before returning or
failing, and its returned value or raised exception. -/
structure RunOutcome where
  stdout : String
  stderr : String
  result : Except PyExc PyValue

/-- What `exec(code_str, sandbox)` (runner.py line 108) left in the sandbox
when loading succeeded: whether a binding named `run` exists, whether it is
callable, and the behavior of invoking it. -/
structure LoadedNS where
  hasRun : Bool
  runCallable : Bool
  runBehavior : Params → RunOutcome

/-- A script's observable behavior at the runner's two evaluation points:
what loading it writes up to its completion or failure, and either the raised
load-time exception or the loaded namespace. -/
structure ScriptModel where
  loadStdout : String
  loadStderr : String
  loadResult : Except PyExc LoadedNS

/-- The dictionary returned by `execute_task` (runner.py lines 124-130). -/
structure ExecResult where
  success : Bool
  data : Option PyValue
  error : Option String
  stdout : String
  stderr : String
deriving DecidableEq

/-- `execute_task(code_str, params)` (runner.py lines 71-130).  The `try`
block loads the script, requires a callable `run` (raising `ValueError`
otherwise — itself caught by the handler since `ValueError` derives from
`Exception`), then invokes `run(params)`.  `except Exception` catches exactly
the exceptions deriving from `Exception`, recording `traceback.format_exc()`;
any other raised class (e.g. `SystemExit`) propagates out of `execute_task`,
modeled as `Except.error`.  The string buffers accumulate across both
evaluation points, so a failure during invocation still reports the output of
loading plus everything `run` wrote before raising; `result_data` is only
assigned on a normal return of `run`, so a failure always reports `data =
none`. -/
def execute_task (code : ScriptModel) (params : Params) : Except PyExc ExecResult :=
  match code.loadResult with
  | Except.error e =>
      if isSubclassOfException e.cls then
        Except.ok { success := false, data := none, error := some (format_exc e),
                    stdout := code.loadStdout, stderr := code.loadStderr }
      else Except.error e
  | Except.ok ns =>
      if ns.hasRun && ns.runCallable then
        let r := ns.runBehavior params
        match r.result with
        | Except.ok v =>
            Except.ok { success := true, data := some v, error := none,
                        stdout := code.loadStdout ++ r.stdout,
                        stderr := code.loadStderr ++ r.stderr }
        | Except.error e =>
            if isSubclassOfException e.cls then
              Except.ok { success := false, data := none, error := some (format_exc e),
                          stdout := code.loadStdout ++ r.stdout,
                          stderr := code.loadStderr ++ r.stderr }
            else Except.error e
      else
        Except.ok { success := false, data := none,
                    error := some (format_exc
                      { cls := "ValueError",
                        msg := "Code must define a 'run(params)' function." }),
                    stdout := code.loadStdout, stderr := code.loadStderr }

/-! ## Concrete scripts and bodies used by individual claims -/

/-- The namespace loaded from
`def run(params): print('hi'); raise ValueError('boom')`: a callable `run`
that writes `"hi\n"` to stdout and then raises `ValueError('boom')`. -/
def hiBoomNS : LoadedNS :=
  { hasRun := true, runCallable := true,
    runBehavior := fun _ =>
      { stdout := "hi\n", stderr := "",
        result := Except.error { cls := "ValueError", msg := "boom" } } }

/-- The script `def run(params): print('hi'); raise ValueError('boom')`:
loading defines `run` and writes nothing. -/
def hiBoomScript : ScriptModel :=
  { loadStdout := "", loadStderr := "", loadResult := Except.ok hiBoomNS }

/-- The execution result of `hiBoomScript`. -/
def hiBoomResult : ExecResult :=
  { success := false, data := none,
    error := some (format_exc { cls := "ValueError", msg := "boom" }),
    stdout := "hi\n", stderr := "" }

/-- A loaded namespace whose `run` raises `SystemExit()` — a standard
exception that does not derive from `Exception`. -/
def sysExitNS : LoadedNS :=
  { hasRun := true, runCallable := true,
    runBehavior := fun _ =>
      { stdout := "", stderr := "",
        result := Except.error { cls := "SystemExit", msg := "" } } }

/-- A validated-looking script whose `run` raises `SystemExit()`. -/
def sysExitScript : ScriptModel :=
  { loadStdout := "", loadStderr := "", loadResult := Except.ok sysExitNS }

/-- A loaded namespace whose `run` raises `TypeError('bad')`. -/
def typeErrNS : LoadedNS :=
  { hasRun := true, runCallable := true,
    runBehavior := fun _ =>
      { stdout := "", stderr := "",
        result := Except.error { cls := "TypeError", msg := "bad" } } }

/-- A script whose `run` raises `TypeError('bad')`. -/
def typeErrScript : ScriptModel :=
  { loadStdout := "", loadStderr := "", loadResult := Except.ok typeErrNS }

/-- `def run(params): pass` as a statement list element: body `[Pass]`. -/
def passBody : List Stmt := [Stmt.StmtOther "Pass" [] []]

/-- A well-formed top-level `run` definition with a `pass` body. -/
def runDefStmt : Stmt := Stmt.FunctionDef "run" ["params"] [] passBody []

/-- `def run(params): pass` followed by `import math` — accepted by the code
although the imports do not precede the `run` definition. -/
def runThenImportBody : List Stmt := [runDefStmt, Stmt.Import ["math"]]

/-- `import math` followed by `def run(params): pass`. -/
def importThenRunBody : List Stmt := [Stmt.Import ["math"], runDefStmt]

/-- `from math import sqrt` followed by `def run(params): pass`. -/
def fromMathImportSqrtBody : List Stmt :=
  [Stmt.ImportFrom (some "math") ["sqrt"], runDefStmt]

/-- `from evilmodule import math` followed by `def run(params): pass`: the
source module is not whitelisted, but the bound name `math` is. -/
def fromEvilImportMathBody : List Stmt :=
  [Stmt.ImportFrom (some "evilmodule") ["math"], runDefStmt]

/-- `import os` followed by `def run(params): pass`. -/
def importOsBody : List Stmt := [Stmt.Import ["os"], runDefStmt]

/-- The expression `eval(x)`. -/
def evalCallExpr : Expr := Expr.Call (Expr.Name "eval") [Expr.Name "x"]

/-- The expression `[eval(x) for x in xs]`. -/
def listCompExpr : Expr := Expr.ExprOther "ListComp" [evalCallExpr, Expr.Name "xs"]

/-- The statement `return [eval(x) for x in xs]`. -/
def returnEvalStmt : Stmt := Stmt.StmtOther "Return" [] [listCompExpr]

/-- `def run(params): return [eval(x) for x in xs]` — a forbidden call nested
inside a comprehension inside the function body. -/
def nestedEvalBody : List Stmt :=
  [Stmt.FunctionDef "run" ["params"] [] [returnEvalStmt] []]

/-! ## Helper lemmas: sizes and the breadth-first walk -/

theorem nodeListSize_append (a b : List Node) :
    nodeListSize (a ++ b) = nodeListSize a + nodeListSize b := by
  induction a with
  | nil => simp [nodeListSize]
  | cons x xs ih => simp [nodeListSize, ih]; omega

theorem nodeListSize_map_expr (es : List Expr) :
    nodeListSize (es.map .expr) = exprListSize es := by
  induction es with
  | nil => simp [nodeListSize, exprListSize]
  | cons e es ih => simp [nodeListSize, exprListSize, ih, nodeSize]

theorem nodeListSize_map_stmt (ss : List Stmt) :
    nodeListSize (ss.map .stmt) = stmtListSize ss := by
  induction ss with
  | nil => simp [nodeListSize, stmtListSize]
  | cons s ss ih => simp [nodeListSize, stmtListSize, ih, nodeSize]

/-- A node counts itself, so its children hold exactly one node fewer. -/
theorem childNodes_size (n : Node) : nodeListSize (childNodes n) + 1 = nodeSize n := by
  match n with
  | .stmt (.Import names) => simp [childNodes, nodeListSize, nodeSize, stmtSize]
  | .stmt (.ImportFrom m names) => simp [childNodes, nodeListSize, nodeSize, stmtSize]
  | .stmt (.FunctionDef nm args ds b decs) =>
      simp [childNodes, nodeSize, stmtSize, nodeListSize_append,
        nodeListSize_map_expr, nodeListSize_map_stmt]
      omega
  | .stmt (.StmtOther k ss es) =>
      simp [childNodes, nodeSize, stmtSize, nodeListSize_append,
        nodeListSize_map_expr, nodeListSize_map_stmt]
      omega
  | .expr (.Name i) => simp [childNodes, nodeListSize, nodeSize, exprSize]
  | .expr .Constant => simp [childNodes, nodeListSize, nodeSize, exprSize]
  | .expr (.Attribute v a) =>
      simp [childNodes, nodeListSize, nodeSize, exprSize]; omega
  | .expr (.Call f args) =>
      simp [childNodes, nodeSize, exprSize, nodeListSize, nodeListSize_map_expr]
      omega
  | .expr (.ExprOther k subs) =>
      simp [childNodes, nodeSize, exprSize, nodeListSize, nodeListSize_map_expr]
      omega

theorem nodeSize_pos (n : Node) : 1 ≤ nodeSize n := by
  have h := childNodes_size n
  omega

theorem occurs_iff (x n : Node) :
    Occurs x n ↔ x = n ∨ ∃ c ∈ childNodes n, Occurs x c := by
  constructor
  · intro h
    cases h with
    | refl => exact Or.inl rfl
    | child hc ho => exact Or.inr ⟨_, hc, ho⟩
  · intro h
    rcases h with rfl | ⟨c, hc, ho⟩
    · exact Occurs.refl x
    · exact Occurs.child hc ho

/-- The fueled breadth-first walk, run with enough fuel, enumerates exactly
the nodes occurring (at any depth) in the queue. -/
theorem mem_walkAux (fuel : Nat) : ∀ (q : List Node), nodeListSize q ≤ fuel →
    ∀ (x : Node), (x ∈ walkAux fuel q ↔ ∃ n ∈ q, Occurs x n) := by
  induction fuel with
  | zero =>
    intro q hq x
    match q with
    | [] => simp [walkAux]
    | n :: rest =>
      exfalso
      have h1 := nodeSize_pos n
      simp [nodeListSize] at hq
      omega
  | succ fuel ih =>
    intro q hq x
    match q with
    | [] => simp [walkAux]
    | n :: rest =>
      have hsz : nodeListSize (rest ++ childNodes n) ≤ fuel := by
        rw [nodeListSize_append]
        have h1 := childNodes_size n
        simp [nodeListSize] at hq
        omega
      have ihh := ih (rest ++ childNodes n) hsz x
      simp only [walkAux, List.mem_cons, List.mem_append] at *
      constructor
      · intro h
        rcases h with rfl | h2
        · exact ⟨x, Or.inl rfl, Occurs.refl x⟩
        · rcases ihh.mp h2 with ⟨m, hm | hm, ho⟩
          · exact ⟨m, Or.inr hm, ho⟩
          · exact ⟨n, Or.inl rfl, Occurs.child hm ho⟩
      · rintro ⟨m, hm | hm, ho⟩
        · subst hm
          rcases (occurs_iff x m).mp ho with rfl | ⟨c, hc, ho2⟩
          · exact Or.inl rfl
          · exact Or.inr (ihh.mpr ⟨c, Or.inr hc, ho2⟩)
        · exact Or.inr (ihh.mpr ⟨m, Or.inl hm, ho⟩)

/-- `ast.walk` yields a node exactly when it occurs in the starting queue. -/
theorem mem_walk (q : List Node) (x : Node) : x ∈ walk q ↔ ∃ n ∈ q, Occurs x n :=
  mem_walkAux (nodeListSize q) q (Nat.le_refl _) x

/-! ## Helper lemmas: the structural pass -/

theorem structLoop_aux (body : List Stmt) (errs : List Violation) (flag : Bool) :
    body.foldl
      (fun acc node => (acc.1 ++ stmtStructErrors node, acc.2 || isRunDefStmt node))
      (errs, flag)
    = (errs ++ body.flatMap stmtStructErrors, flag || body.any isRunDefStmt) := by
  induction body generalizing errs flag with
  | nil => simp
  | cons s ss ih => simp [ih, Bool.or_assoc, List.append_assoc]

/-- The structural loop accumulates per-statement errors in order and flags
whether any `run` definition was seen. -/
theorem structLoop_spec (body : List Stmt) :
    structLoop body = (body.flatMap stmtStructErrors, body.any isRunDefStmt) := by
  simpa using structLoop_aux body [] false

theorem importAliasErrors_eq_nil (names : List String) :
    importAliasErrors names = [] ↔
      names.all (fun nm => ALLOWED_IMPORTS.contains (rootModule nm)) = true := by
  rw [importAliasErrors, List.filterMap_eq_nil_iff, List.all_eq_true]
  constructor
  · intro h nm hm
    by_contra hc
    have h2 := h nm hm
    rw [if_neg hc] at h2
    exact Option.some_ne_none _ h2
  · intro h nm hm
    rw [if_pos (h nm hm)]

theorem runArgsCond (args : List String) :
    (args.length != 1 || args.headD "" != "params") = false ↔ args = ["params"] := by
  match args with
  | [] => simp
  | [a] => simp [List.headD]
  | a :: b :: t => simp

theorem stmtStructErrors_eq_nil (s : Stmt) :
    stmtStructErrors s = [] ↔ stmtClean s = true := by
  match s with
  | .Import names =>
      simp [stmtStructErrors, stmtClean, isAllowedImportStmt, isWellFormedRunDef,
        importAliasErrors_eq_nil]
  | .ImportFrom m names =>
      simp [stmtStructErrors, stmtClean, isAllowedImportStmt, isWellFormedRunDef,
        importAliasErrors_eq_nil]
  | .FunctionDef nm args ds b decs =>
      by_cases hnm : (nm == "run") = true
      · by_cases hargs : args = ["params"]
        · subst hargs
          simp [stmtStructErrors, stmtClean, isAllowedImportStmt, isWellFormedRunDef, hnm]
        · have hc : (args.length != 1 || args.headD "" != "params") = true := by
            by_contra hcc
            simp only [Bool.not_eq_true] at hcc
            exact hargs ((runArgsCond args).mp hcc)
          have hbe : (args == ["params"]) = false := by
            simp [hargs]
          simp only [stmtStructErrors]
          rw [if_pos hnm, if_pos hc]
          simp [stmtClean, isAllowedImportStmt, isWellFormedRunDef, hbe]
      · have hbeq : (nm == "run") = false := by simpa using hnm
        simp [stmtStructErrors, stmtClean, isAllowedImportStmt, isWellFormedRunDef, hbeq]
  | .StmtOther k ss es =>
      simp [stmtStructErrors, stmtClean, isAllowedImportStmt, isWellFormedRunDef]

theorem missingEntry_not_mem_stmtStructErrors (s : Stmt) :
    Violation.missingEntry ∉ stmtStructErrors s := by
  match s with
  | .Import names | .ImportFrom _ names =>
      intro h
      simp only [stmtStructErrors] at h
      rcases List.mem_filterMap.mp h with ⟨nm, _, hf⟩
      by_cases hc : ALLOWED_IMPORTS.contains (rootModule nm) = true
      · rw [if_pos hc] at hf; exact Option.noConfusion hf
      · rw [if_neg hc] at hf; exact Violation.noConfusion (Option.some.inj hf)
  | .FunctionDef nm args ds b decs =>
      intro h
      simp only [stmtStructErrors] at h
      by_cases hnm : (nm == "run") = true
      · rw [if_pos hnm] at h
        by_cases hc : (args.length != 1 || args.headD "" != "params") = true
        · rw [if_pos hc] at h; simp at h
        · rw [if_neg hc] at h; exact List.not_mem_nil _ h
      · rw [if_neg hnm] at h; simp at h
  | .StmtOther k ss es => intro h; simp [stmtStructErrors] at h

/-- Full characterization of the structural-pass error list as the per-statement
contributions followed by the entry-point check. -/
theorem structuralErrors_spec (body : List Stmt) :
    structuralErrors body =
      body.flatMap stmtStructErrors ++
        (if body.any isRunDefStmt then [] else [Violation.missingEntry]) := by
  rw [structuralErrors, structLoop_spec]

/-! ## Helper lemmas: the deep scan -/

/-- `checkNode` flags exactly the two call shapes the deep scan looks for, and
nothing else. -/
theorem checkNode_spec (n : Node) (v : Violation) :
    v ∈ checkNode n ↔
      (∃ f args, n = Node.expr (Expr.Call (Expr.Name f) args)
          ∧ FORBIDDEN_CALLS.contains f = true ∧ v = Violation.forbiddenCall f)
      ∨ (∃ obj a args, n = Node.expr (Expr.Call (Expr.Attribute obj a) args)
          ∧ FORBIDDEN_ATTRS.contains a = true ∧ v = Violation.forbiddenAttr a) := by
  constructor
  · intro hv
    match n with
    | .stmt s => simp [checkNode] at hv
    | .expr (.Name i) => simp [checkNode] at hv
    | .expr .Constant => simp [checkNode] at hv
    | .expr (.Attribute w a) => simp [checkNode] at hv
    | .expr (.ExprOther k subs) => simp [checkNode] at hv
    | .expr (.Call .Constant args) => simp [checkNode] at hv
    | .expr (.Call (.Call g as2) args) => simp [checkNode] at hv
    | .expr (.Call (.ExprOther k subs) args) => simp [checkNode] at hv
    | .expr (.Call (.Name f) args) =>
        by_cases hf : FORBIDDEN_CALLS.contains f = true
        · simp only [checkNode, hf, if_true, List.mem_singleton] at hv
          exact Or.inl ⟨f, args, rfl, hf, hv⟩
        · simp only [checkNode, hf, if_false, Bool.false_eq_true] at hv
          exact absurd hv (List.not_mem_nil v)
    | .expr (.Call (.Attribute obj a) args) =>
        by_cases ha : FORBIDDEN_ATTRS.contains a = true
        · simp only [checkNode, ha, if_true, List.mem_singleton] at hv
          exact Or.inr ⟨obj, a, args, rfl, ha, hv⟩
        · simp only [checkNode, ha, if_false, Bool.false_eq_true] at hv
          exact absurd hv (List.not_mem_nil v)
  · rintro (⟨f, args, rfl, hf, rfl⟩ | ⟨obj, a, args, rfl, ha, rfl⟩)
    · simp only [checkNode, hf, if_true, List.mem_singleton]
    · simp only [checkNode, ha, if_true, List.mem_singleton]

/-- A violation is produced by the deep scan exactly when some node occurring
anywhere in the tree is flagged by the per-node check. -/
theorem deepPass_mem (body : List Stmt) (v : Violation) :
    v ∈ deepPass body ↔ ∃ n, OccursIn n body ∧ v ∈ checkNode n := by
  rw [deepPass, List.mem_flatten]
  constructor
  · rintro ⟨w, hw, hv⟩
    rcases List.mem_map.mp hw with ⟨n, hn, rfl⟩
    rcases (mem_walk _ n).mp hn with ⟨m, hm, ho⟩
    rcases List.mem_map.mp hm with ⟨s, hs, rfl⟩
    exact ⟨n, ⟨s, hs, ho⟩, hv⟩
  · rintro ⟨n, ⟨s, hs, ho⟩, hv⟩
    refine ⟨checkNode n, List.mem_map_of_mem _ ?_, hv⟩
    exact (mem_walk _ n).mpr ⟨Node.stmt s, List.mem_map_of_mem _ hs, ho⟩

/-! ## Claim theorems -/

/-- C3 (amended): the structural pass emits no violations if and only if every
top-level statement is an allowed import or a definition of `run` with
parameter list exactly `params`, and at least one `run` definition occurs
somewhere in the body (order and multiplicity of `run` definitions are not
enforced).  Moreover: a top-level function definition not named `run` emits a
structural violation, a `run` definition with a mismatched parameter list
emits a structural violation, any other top-level statement kind emits a
structural violation, and `MissingEntryPoint` is emitted exactly when no
`run` definition was seen. -/
theorem C3_structural_pass_amended (body : List Stmt) :
    (structuralErrors body = [] ↔
        (body.all stmtClean = true ∧ body.any isRunDefStmt = true))
    ∧ (Violation.missingEntry ∈ structuralErrors body ↔ body.any isRunDefStmt = false)
    ∧ (∀ nm args ds b decs, Stmt.FunctionDef nm args ds b decs ∈ body →
        (nm == "run") = false → Violation.forbiddenTopFunc nm ∈ structuralErrors body)
    ∧ (∀ nm args ds b decs, Stmt.FunctionDef nm args ds b decs ∈ body →
        (nm == "run") = true → args ≠ ["params"] →
        Violation.badRunArgs ∈ structuralErrors body)
    ∧ (∀ k ss es, Stmt.StmtOther k ss es ∈ body →
        Violation.forbiddenTopStmt k ∈ structuralErrors body) := by
  refine ⟨?_, ?_, ?_, ?_, ?_⟩
  · rw [structuralErrors_spec, List.append_eq_nil]
    constructor
    · rintro ⟨h1, h2⟩
      refine ⟨List.all_eq_true.mpr fun s hs => (stmtStructErrors_eq_nil s).mp
          (List.flatMap_eq_nil_iff.mp h1 s hs), ?_⟩
      by_cases hany : body.any isRunDefStmt = true
      · exact hany
      · rw [if_neg hany] at h2
        exact absurd h2 (by simp)
    · rintro ⟨h1, h2⟩
      refine ⟨List.flatMap_eq_nil_iff.mpr fun s hs =>
          (stmtStructErrors_eq_nil s).mpr (List.all_eq_true.mp h1 s hs), ?_⟩
      rw [if_pos h2]
  · rw [structuralErrors_spec]
    rw [List.mem_append]
    constructor
    · rintro (h | h)
      · rcases List.mem_flatMap.mp h with ⟨s, _, hmem⟩
        exact absurd hmem (missingEntry_not_mem_stmtStructErrors s)
      · by_cases hany : body.any isRunDefStmt = true
        · rw [if_pos hany] at h
          exact absurd h (List.not_mem_nil _)
        · simpa using hany
    · intro h
      rw [h]
      simp
  · intro nm args ds b decs hmem hnm
    rw [structuralErrors_spec, List.mem_append]
    refine Or.inl (List.mem_flatMap.mpr ⟨Stmt.FunctionDef nm args ds b decs, hmem, ?_⟩)
    simp only [stmtStructErrors]
    rw [if_neg (by simp [hnm])]
    exact List.mem_singleton_self _
  · intro nm args ds b decs hmem hnm hargs
    rw [structuralErrors_spec, List.mem_append]
    refine Or.inl (List.mem_flatMap.mpr ⟨Stmt.FunctionDef nm args ds b decs, hmem, ?_⟩)
    have hc : (args.length != 1 || args.headD "" != "params") = true := by
      by_contra hcc
      simp only [Bool.not_eq_true] at hcc
      exact hargs ((runArgsCond args).mp hcc)
    simp only [stmtStructErrors]
    rw [if_pos hnm, if_pos hc]
    exact List.mem_singleton_self _
  · intro k ss es hmem
    rw [structuralErrors_spec, List.mem_append]
    refine Or.inl (List.mem_flatMap.mpr ⟨Stmt.StmtOther k ss es, hmem, ?_⟩)
    simp [stmtStructErrors]

/-- Witness for C3: a body of one allowed import followed by a well-formed
`run` definition yields no structural violations. -/
theorem C3_witness : structuralErrors importThenRunBody = [] :=
  (C3_structural_pass_amended importThenRunBody).1.mpr ⟨by decide, by decide⟩

/-- Counterexample to C3 as stated: the body `def run(params): pass` followed
by `import math` is NOT of the claimed shape (zero-or-more allowed imports
followed by exactly one `run` definition), yet the validator emits no
violations at all — the structural pass enforces neither the order of the
statements nor the uniqueness of the `run` definition. -/
theorem C3_counterexample :
    structuralErrors runThenImportBody = []
    ∧ (validate_code (ParseOutcome.parsed runThenImportBody)).valid = true
    ∧ (validate_code (ParseOutcome.parsed runThenImportBody)).errors = []
    ∧ claimedShape runThenImportBody = false :=
  ⟨rfl, rfl, rfl, rfl⟩

/-- C4 (code evaluated at the divergence): the import check runs over
`node.names` for `ImportFrom` statements too, i.e. over the *bound names*,
not over the source module.  Hence `from math import sqrt` — whose source
module root `math` is whitelisted — is rejected with a `ForbiddenImport`
naming `sqrt`, while `from evilmodule import math` — whose source module root
is NOT whitelisted — passes the whole validation.  The plain-import side of
the claim does hold: `import os` is rejected naming `os` and `import math`
passes. -/
theorem C4_importFrom_checks_bound_names :
    (validate_code (ParseOutcome.parsed fromMathImportSqrtBody)).errors
        = [Violation.forbiddenImport "sqrt"]
    ∧ (validate_code (ParseOutcome.parsed fromMathImportSqrtBody)).valid = false
    ∧ (validate_code (ParseOutcome.parsed fromEvilImportMathBody)).errors = []
    ∧ (validate_code (ParseOutcome.parsed fromEvilImportMathBody)).valid = true
    ∧ (validate_code (ParseOutcome.parsed importOsBody)).errors
        = [Violation.forbiddenImport "os"]
    ∧ (validate_code (ParseOutcome.parsed importThenRunBody)).errors = [] :=
  ⟨rfl, rfl, rfl, rfl, rfl, rfl⟩

/-- C5: the deep scan produces a violation exactly for the calls — occurring
at any nesting depth in the tree, including inside `run`'s body,
comprehensions and default-argument expressions — whose callee is a bare name
in `FORBIDDEN_CALLS` (a `ForbiddenCall` naming it) or an attribute access
whose attribute name is in `FORBIDDEN_ATTRS` (a `ForbiddenAttribute` naming
it); no other node is flagged by this pass. -/
theorem C5_deep_scan_characterization (body : List Stmt) (v : Violation) :
    v ∈ deepPass body ↔
      (∃ f args, FORBIDDEN_CALLS.contains f = true
          ∧ OccursIn (Node.expr (Expr.Call (Expr.Name f) args)) body
          ∧ v = Violation.forbiddenCall f)
      ∨ (∃ obj a args, FORBIDDEN_ATTRS.contains a = true
          ∧ OccursIn (Node.expr (Expr.Call (Expr.Attribute obj a) args)) body
          ∧ v = Violation.forbiddenAttr a) := by
  rw [deepPass_mem]
  constructor
  · rintro ⟨n, hocc, hv⟩
    rcases (checkNode_spec n v).mp hv with
      ⟨f, args, rfl, hf, hveq⟩ | ⟨obj, a, args, rfl, ha, hveq⟩
    · exact Or.inl ⟨f, args, hf, hocc, hveq⟩
    · exact Or.inr ⟨obj, a, args, ha, hocc, hveq⟩
  · rintro (⟨f, args, hf, hocc, rfl⟩ | ⟨obj, a, args, ha, hocc, rfl⟩)
    · exact ⟨_, hocc, (checkNode_spec _ _).mpr (Or.inl ⟨f, args, rfl, hf, rfl⟩)⟩
    · exact ⟨_, hocc, (checkNode_spec _ _).mpr (Or.inr ⟨obj, a, args, rfl, ha, rfl⟩)⟩

/-- Witness for C5: `eval(x)` nested inside a comprehension inside `run`'s
body is flagged by the deep scan. -/
theorem C5_witness : Violation.forbiddenCall "eval" ∈ deepPass nestedEvalBody := by
  refine (C5_deep_scan_characterization nestedEvalBody
      (Violation.forbiddenCall "eval")).mpr
    (Or.inl ⟨"eval", [Expr.Name "x"], by decide, ?_, rfl⟩)
  refine ⟨Stmt.FunctionDef "run" ["params"] [] [returnEvalStmt] [], by
    simp [nestedEvalBody], ?_⟩
  have h1 : Node.stmt returnEvalStmt
      ∈ childNodes (Node.stmt (Stmt.FunctionDef "run" ["params"] [] [returnEvalStmt] [])) := by
    simp [childNodes]
  have h2 : Node.expr listCompExpr ∈ childNodes (Node.stmt returnEvalStmt) := by
    simp [childNodes, returnEvalStmt]
  have h3 : Node.expr (Expr.Call (Expr.Name "eval") [Expr.Name "x"])
      ∈ childNodes (Node.expr listCompExpr) := by
    simp [childNodes, listCompExpr, evalCallExpr]
  exact Occurs.child h1 (Occurs.child h2 (Occurs.child h3 (Occurs.refl _)))

/-- C7: for every parse outcome, the report of `validate_code` is valid
exactly when its violation list is empty. -/
theorem C7_valid_iff_no_violations (p : ParseOutcome) :
    (validate_code p).valid = true ↔ (validate_code p).errors = [] := by
  match p with
  | .synFail m => simp [validate_code]
  | .otherFail m => simp [validate_code]
  | .parsed body => simp [validate_code]

/-- Witness for C7 at a concrete accepted body. -/
theorem C7_witness : (validate_code (ParseOutcome.parsed importThenRunBody)).valid = true :=
  (C7_valid_iff_no_violations (ParseOutcome.parsed importThenRunBody)).mpr rfl

/-- C8: a source whose parse raises a `SyntaxError` yields a report with
exactly one violation, of the syntax-error kind, and no structural or deep
check contributes anything to it. -/
theorem C8_syntax_error_single_violation (msg : String) :
    validate_code (ParseOutcome.synFail msg)
      = { valid := false, errors := [Violation.synError msg] } := rfl

/-- Witness for C8 at a concrete parser message. -/
theorem C8_witness :
    validate_code (ParseOutcome.synFail "invalid syntax (<unknown>, line 1)")
      = { valid := false,
          errors := [Violation.synError "invalid syntax (<unknown>, line 1)"] } :=
  C8_syntax_error_single_violation "invalid syntax (<unknown>, line 1)"

/-- C9: `validate_code` is a total function of the parse outcome alone —
embedded as a pure Lean function it always returns a report, and two
invocations on equal inputs return reports identical in content and order. -/
theorem C9_validator_deterministic (p q : ParseOutcome) (h : p = q) :
    validate_code p = validate_code q := by rw [h]

/-- Witness for C9 at a concrete input. -/
theorem C9_witness :
    validate_code (ParseOutcome.parsed importThenRunBody)
      = validate_code (ParseOutcome.parsed importThenRunBody) :=
  C9_validator_deterministic (ParseOutcome.parsed importThenRunBody)
    (ParseOutcome.parsed importThenRunBody) rfl

/-- C10: a source whose parsed top-level body is empty (as the empty source
string parses in CPython: `ast.parse("")` is `Module(body=[])`) is valid
Python, so it is not reported as a syntax error; the structural pass sees no
`run` definition and the report is invalid with exactly one violation, of
kind `MissingEntryPoint`. -/
theorem C10_empty_body_missing_entry :
    validate_code (ParseOutcome.parsed [])
      = { valid := false, errors := [Violation.missingEntry] } := rfl

/-- C1 (code evaluated at the divergence): the execution namespace does
expose exactly the whitelisted names (the `hasattr` filter drops nothing,
since every whitelisted name is a real builtin) plus the `params` binding —
but the whitelist itself contains `__import__`, and the sandbox binds it to
the host's real import primitive.  Module import reads the filesystem and
hands evaluated code the `os` module (and with it process and filesystem
primitives), so a filesystem/process-reaching primitive IS reachable through
the namespace by construction. -/
theorem C1_sandbox_binds_real_import :
    "__import__" ∈ SAFE_BUILTINS
    ∧ (mkSandbox []).builtinsNS.lookup "__import__" = some (PyValue.builtinFn "__import__")
    ∧ safe_builtins_dict.map Prod.fst = SAFE_BUILTINS
    ∧ (mkSandbox []).paramsVal = [] :=
  ⟨by decide, rfl, rfl, rfl⟩

/-- C2: every `ExecutionResult` actually returned by `execute_task` satisfies
the success/error/data invariant; on a failure raised by `run`, the captured
streams still hold everything produced up to the point of failure (the output
of loading followed by everything `run` wrote before raising); and the script
`def run(params): print('hi'); raise ValueError('boom')` yields
`success = false`, a stdout containing `"hi\n"` and an error text containing
`ValueError: boom`. -/
theorem C2_execution_result_invariants :
    (∀ (code : ScriptModel) (params : Params) (r : ExecResult),
        execute_task code params = Except.ok r →
          (r.success = true → r.error = none)
          ∧ (r.success = false → r.data = none ∧ r.error ≠ none))
    ∧ (∀ (code : ScriptModel) (params : Params) (ns : LoadedNS) (e : PyExc) (r : ExecResult),
        code.loadResult = Except.ok ns → ns.hasRun = true → ns.runCallable = true →
        (ns.runBehavior params).result = Except.error e →
        execute_task code params = Except.ok r →
          r.stdout = code.loadStdout ++ (ns.runBehavior params).stdout
          ∧ r.stderr = code.loadStderr ++ (ns.runBehavior params).stderr)
    ∧ (execute_task hiBoomScript [] = Except.ok hiBoomResult
        ∧ hiBoomResult.success = false
        ∧ strContains hiBoomResult.stdout "hi\n"
        ∧ ∃ t, hiBoomResult.error = some t ∧ strContains t "ValueError: boom") := by
  refine ⟨?_, ?_, ?_, ?_, ?_, ?_⟩
  · intro code params r h
    rcases hl : code.loadResult with e | ns
    · simp only [execute_task, hl] at h
      by_cases he : isSubclassOfException e.cls = true
      · rw [if_pos he] at h
        injection h with h2
        subst h2
        exact ⟨(fun hs => nomatch hs), (fun _ => ⟨rfl, (fun hc => nomatch hc)⟩)⟩
      · rw [if_neg he] at h
        exact Except.noConfusion h
    · simp only [execute_task, hl] at h
      by_cases hrun : (ns.hasRun && ns.runCallable) = true
      · rw [if_pos hrun] at h
        rcases hr : (ns.runBehavior params).result with e | v
        · rw [hr] at h
          dsimp only at h
          by_cases he : isSubclassOfException e.cls = true
          · rw [if_pos he] at h
            injection h with h2
            subst h2
            exact ⟨(fun hs => nomatch hs), (fun _ => ⟨rfl, (fun hc => nomatch hc)⟩)⟩
          · rw [if_neg he] at h
            exact Except.noConfusion h
        · rw [hr] at h
          dsimp only at h
          injection h with h2
          subst h2
          exact ⟨(fun _ => rfl), (fun hs => nomatch hs)⟩
      · rw [if_neg hrun] at h
        injection h with h2
        subst h2
        exact ⟨(fun hs => nomatch hs), (fun _ => ⟨rfl, (fun hc => nomatch hc)⟩)⟩
  · intro code params ns e r hl hrun hcall hres h
    simp only [execute_task, hl] at h
    rw [if_pos (by rw [hrun, hcall]; rfl)] at h
    rw [hres] at h
    dsimp only at h
    by_cases he : isSubclassOfException e.cls = true
    · rw [if_pos he] at h
      injection h with h2
      subst h2
      exact ⟨rfl, rfl⟩
    · rw [if_neg he] at h
      exact Except.noConfusion h
  · exact rfl
  · exact rfl
  · exact ⟨"", "", rfl⟩
  · exact ⟨format_exc { cls := "ValueError", msg := "boom" }, rfl,
      "Traceback (most recent call last):\n", "\n", rfl⟩

/-- Witness for C2: the invariant instantiated at the `hi`/`boom` script. -/
theorem C2_witness :
    (hiBoomResult.success = true → hiBoomResult.error = none)
    ∧ (hiBoomResult.success = false → hiBoomResult.data = none ∧ hiBoomResult.error ≠ none) :=
  C2_execution_result_invariants.1 hiBoomScript [] hiBoomResult rfl

/-- C6 (amended): an exception raised while loading the script or while
invoking `run` that derives from `Exception` — the recoverable subtree of the
standard hierarchy — is caught and reported as a formatted diagnostic trace
with `success = false` and `data = none`; an exception whose class does not
derive from `Exception` is not caught and propagates, terminating the call
abnormally. -/
theorem C6_exception_boundary_amended (code : ScriptModel) (params : Params) (e : PyExc) :
    (code.loadResult = Except.error e →
      (isSubclassOfException e.cls = true →
        execute_task code params = Except.ok
          { success := false, data := none, error := some (format_exc e),
            stdout := code.loadStdout, stderr := code.loadStderr })
      ∧ (isSubclassOfException e.cls = false →
        execute_task code params = Except.error e))
    ∧ (∀ ns, code.loadResult = Except.ok ns → ns.hasRun = true → ns.runCallable = true →
        (ns.runBehavior params).result = Except.error e →
      (isSubclassOfException e.cls = true →
        execute_task code params = Except.ok
          { success := false, data := none, error := some (format_exc e),
            stdout := code.loadStdout ++ (ns.runBehavior params).stdout,
            stderr := code.loadStderr ++ (ns.runBehavior params).stderr })
      ∧ (isSubclassOfException e.cls = false →
        execute_task code params = Except.error e)) := by
  constructor
  · intro hl
    constructor
    · intro he
      simp only [execute_task, hl]
      rw [if_pos he]
    · intro he
      simp only [execute_task, hl]
      rw [if_neg (by simp [he])]
  · intro ns hl hrun hcall hres
    constructor
    · intro he
      simp only [execute_task, hl]
      rw [if_pos (by rw [hrun, hcall]; rfl)]
      rw [hres]
      dsimp only
      rw [if_pos he]
    · intro he
      simp only [execute_task, hl]
      rw [if_pos (by rw [hrun, hcall]; rfl)]
      rw [hres]
      dsimp only
      rw [if_neg (by simp [he])]

/-- Witness for C6: a `TypeError` raised by `run` is caught and reported;
a `SystemExit` raised by `run` propagates. -/
theorem C6_witness :
    execute_task typeErrScript [] = Except.ok
      { success := false, data := none,
        error := some (format_exc { cls := "TypeError", msg := "bad" }),
        stdout := typeErrScript.loadStdout ++ (typeErrNS.runBehavior []).stdout,
        stderr := typeErrScript.loadStderr ++ (typeErrNS.runBehavior []).stderr }
    ∧ execute_task sysExitScript [] = Except.error { cls := "SystemExit", msg := "" } :=
  ⟨((C6_exception_boundary_amended typeErrScript [] { cls := "TypeError", msg := "bad" }).2
      typeErrNS rfl rfl rfl rfl).1 rfl,
   ((C6_exception_boundary_amended sysExitScript [] { cls := "SystemExit", msg := "" }).2
      sysExitNS rfl rfl rfl rfl).2 rfl⟩

/-- Counterexample to C6 as stated: `SystemExit` belongs to the language's
standard exception hierarchy (it derives from `BaseException`), yet when
`run` raises it the runner's `except Exception` handler does NOT catch it —
the call terminates abnormally instead of returning a diagnostic report.
The uncaught classes are exactly those outside the `Exception` subtree
(`SystemExit`, `KeyboardInterrupt`, `GeneratorExit`), not host-fatal
conditions: `MemoryError` and `RecursionError` derive from `Exception` and
ARE caught. -/
theorem C6_counterexample :
    inStandardHierarchy "SystemExit" = true
    ∧ isSubclassOfException "SystemExit" = false
    ∧ execute_task sysExitScript [] = Except.error { cls := "SystemExit", msg := "" }
    ∧ isSubclassOfException "MemoryError" = true
    ∧ isSubclassOfException "RecursionError" = true :=
  ⟨rfl, rfl, rfl, rfl, rfl⟩
